import Mathlib

/-!
Verification of the dMRI-preprocessing excerpt of nipype.

The embedding covers:
* the auto-generated trait-metadata expectations for the `Gennlxfm` MINC
  wrapper (`nipype/interfaces/minc/tests/test_auto_Gennlxfm.py`);
* the helper functions and workflow wiring of
  `nipype/workflows/dmri/preprocess/epi.py` (`hmc_pipeline`, `ecc_pipeline`,
  `_checkrnum`, `_checkinitxfm`, `_nonb0`, `_xfm_jacobian`).

File contents (paths, b-value tables, transform matrices) are modelled by the
values they hold: a b-value file is its list of rationals, a transform file its
4x4 rational matrix.
-/

namespace Nipype

/-- The trait attributes that the auto-generated metadata tests inspect, each
`none` when the test's expected dictionary does not list it. -/
structure TraitMeta where
  argstr : Option String := none
  usedefault : Option Bool := none
  nohash : Option Bool := none
  genfile : Option Bool := none
  hash_files : Option Bool := none
  name_source : Option (List String) := none
  name_template : Option String := none
  position : Option Int := none
deriving DecidableEq

/-- The expected `input_map` of `test_Gennlxfm_inputs`
(`nipype/interfaces/minc/tests/test_auto_Gennlxfm.py`), one entry per input
field with exactly the attributes the generated test lists. -/
def gennlxfm_input_map : List (String × TraitMeta) :=
  [ ("args", { argstr := some "%s" })
  , ("clobber", { argstr := some "-clobber", usedefault := some true })
  , ("environ", { nohash := some true, usedefault := some true })
  , ("ident", { argstr := some "-ident" })
  , ("ignore_exception", { nohash := some true, usedefault := some true })
  , ("like", { argstr := some "-like %s" })
  , ("output_file",
      { argstr := some "%s", genfile := some true, hash_files := some false,
        name_source := some ["like"], name_template := some "%s_gennlxfm.xfm",
        position := some (-1) })
  , ("step", { argstr := some "-step %s" })
  , ("terminal_output", { nohash := some true })
  , ("verbose", { argstr := some "-verbose" })
  ]

/-- The expected `output_map` of `test_Gennlxfm_outputs`: two output fields,
each with an empty attribute dictionary. -/
def gennlxfm_output_map : List (String × TraitMeta) :=
  [ ("output_file", {})
  , ("output_grid", {})
  ]

/-- Modelled from the spec: the `Gennlxfm` wrapper class itself
(`nipype/interfaces/minc/minc.py`) is missing from this excerpt; only its
auto-generated metadata test is present.  Per the spec, the declared trait
attributes of each named input field of the wrapper equal the fixed expected
mapping asserted by that test, so the wrapper's declared input traits are
modelled as exactly that mapping. -/
def Gennlxfm.input_traits : List (String × TraitMeta) := gennlxfm_input_map

/-- Modelled from the spec: the `Gennlxfm` wrapper class is missing from this
excerpt; its output spec is modelled as declaring exactly the output fields
named by the auto-generated expected output map, with no attribute
constraints. -/
def Gennlxfm.output_traits : List (String × TraitMeta) := gennlxfm_output_map

/-- Definedness state of an optional nipype input value: Python `None`, the
traits `Undefined` sentinel, or a defined value. -/
inductive PyOpt (α : Type) where
  | none
  | undefined
  | defined (a : α)
deriving DecidableEq

/-- `_checkrnum` (`nipype/workflows/dmri/preprocess/epi.py`): the reference
index is 0 when `ref_num` is `None` or not defined, and `ref_num` itself
otherwise. -/
def _checkrnum : PyOpt Int → Int
  | .none => 0
  | .undefined => 0
  | .defined n => n

/-- `_nonb0`: the indices of the nonzero entries of the b-value table, in
increasing order (`np.where(bvals != 0)[0].tolist()`). -/
def _nonb0 (bvals : List ℚ) : List Nat :=
  (List.range bvals.length).filter fun i => decide (bvals.getD i 0 ≠ 0)

/-- One entry of the list produced by `_checkinitxfm`: either the path
`init_%04d.mat` freshly written with the 4x4 identity matrix (`np.eye(4)`), or
an entry of `in_xfms` passed through unchanged. -/
inductive XfmEntry where
  | freshIdentity (i : Nat)
  | passthrough (f : String)
deriving DecidableEq

/-- `_checkinitxfm`: when `in_xfms` is `None`, not defined, or of length
different from the b-value table, an identity transform is written for each
nonzero b-value index; otherwise the entries of `in_xfms` at those indices are
returned in order. -/
def _checkinitxfm (bvals : List ℚ) (in_xfms : PyOpt (List String)) :
    List XfmEntry :=
  let non_b0 := _nonb0 bvals
  match in_xfms with
  | .defined xs =>
      if xs.length = bvals.length then
        non_b0.map fun i => .passthrough (xs.getD i "")
      else
        non_b0.map .freshIdentity
  | _ => non_b0.map .freshIdentity

/-- `_xfm_jacobian`: each transform file (modelled by the 4x4 rational matrix
it holds) is mapped to `fabs(np.linalg.det(np.loadtxt(xfm)))`, the absolute
value of its determinant. -/
def _xfm_jacobian (in_xfm : List (Matrix (Fin 4) (Fin 4) ℚ)) : List ℚ :=
  in_xfm.map fun xfm => |xfm.det|

/-- The interface a workflow node carries, to the extent the embedded claims
inspect it: a `niu.IdentityInterface` with its declared fields, a `niu.Select`
node, or a node wrapping an external tool or a Python helper function. -/
inductive NodeInterface where
  | identityInterface (fields : List String)
  | select
  | tool (desc : String)
deriving DecidableEq

/-- A named node of a workflow. -/
structure WfNode where
  name : String
  interface : NodeInterface
deriving DecidableEq

/-- The helper functions that `connect` tuples apply to a source field. -/
inductive ConnFun where
  | checkrnum
  | nonb0
  | xfmJacobian
deriving DecidableEq

/-- The source slot of one connection: a plain output field, or an output field
routed through a helper function. -/
inductive SrcField where
  | plain (f : String)
  | viaFun (f : String) (g : ConnFun)
deriving DecidableEq

/-- One field-to-field wire of a workflow `connect` call. -/
structure Connection where
  src : String
  srcField : SrcField
  dst : String
  dstField : String
deriving DecidableEq

/-- A workflow: its name, its nodes and its wiring. -/
structure Workflow where
  name : String
  nodes : List WfNode
  connections : List Connection
deriving DecidableEq

/-- The interface of the node of `wf` named `n`, when there is one. -/
def Workflow.nodeInterface (wf : Workflow) (n : String) : Option NodeInterface :=
  (wf.nodes.find? fun nd => nd.name == n).map WfNode.interface

/-- `hmc_pipeline` (`nipype/workflows/dmri/preprocess/epi.py`): the
head-motion-correction workflow, embedded as its node list and the flattened
field wiring of its `connect` call. -/
def hmc_pipeline (name : String) : Workflow :=
  { name := name
  , nodes :=
      [ ⟨"inputnode", .identityInterface ["in_file", "ref_num", "in_bvec", "in_mask"]⟩
      , ⟨"SplitDWIs", .tool "fsl.Split"⟩
      , ⟨"Pick_b0", .select⟩
      , ⟨"CoRegistration", .tool "fsl.FLIRT"⟩
      , ⟨"Rotate_Bvec", .tool "rotate_bvecs"⟩
      , ⟨"MergeDWIs", .tool "fsl.Merge"⟩
      , ⟨"outputnode", .identityInterface ["out_file", "out_bvec", "out_xfms"]⟩
      ]
  , connections :=
      [ ⟨"inputnode", .plain "in_file", "SplitDWIs", "in_file"⟩
      , ⟨"SplitDWIs", .plain "out_files", "Pick_b0", "inlist"⟩
      , ⟨"inputnode", .viaFun "ref_num" .checkrnum, "Pick_b0", "index"⟩
      , ⟨"inputnode", .plain "in_mask", "CoRegistration", "ref_weight"⟩
      , ⟨"SplitDWIs", .plain "out_files", "CoRegistration", "in_file"⟩
      , ⟨"inputnode", .plain "in_bvec", "Rotate_Bvec", "in_bvec"⟩
      , ⟨"CoRegistration", .plain "out_matrix_file", "Rotate_Bvec", "in_matrix"⟩
      , ⟨"Pick_b0", .plain "out", "CoRegistration", "reference"⟩
      , ⟨"CoRegistration", .plain "out_file", "MergeDWIs", "in_files"⟩
      , ⟨"MergeDWIs", .plain "merged_file", "outputnode", "out_file"⟩
      , ⟨"Rotate_Bvec", .plain "out_file", "outputnode", "out_bvec"⟩
      , ⟨"CoRegistration", .plain "out_matrix_file", "outputnode", "out_xfms"⟩
      ]
  }

/-- `ecc_pipeline` (`nipype/workflows/dmri/preprocess/epi.py`): the
eddy-current-correction workflow, embedded as its node list and the flattened
field wiring of its `connect` call. -/
def ecc_pipeline (name : String) : Workflow :=
  { name := name
  , nodes :=
      [ ⟨"inputnode", .identityInterface ["in_file", "in_bval", "in_mask", "in_xfms"]⟩
      , ⟨"SplitDWIs", .tool "fsl.Split"⟩
      , ⟨"b0_avg", .tool "b0_average"⟩
      , ⟨"Pick_DWIs", .select⟩
      , ⟨"CoRegistration", .tool "fsl.FLIRT"⟩
      , ⟨"InitXforms", .tool "_checkinitxfm"⟩
      , ⟨"ModulateDWIs", .tool "fsl.BinaryMaths.mul"⟩
      , ⟨"RemoveNegative", .tool "fsl.Threshold"⟩
      , ⟨"GatherMatrices", .tool "recompose_xfm"⟩
      , ⟨"MergeDWIs", .tool "recompose_dwi"⟩
      , ⟨"outputnode", .identityInterface ["out_file", "out_xfms"]⟩
      ]
  , connections :=
      [ ⟨"inputnode", .plain "in_file", "SplitDWIs", "in_file"⟩
      , ⟨"inputnode", .plain "in_file", "b0_avg", "in_dwi"⟩
      , ⟨"inputnode", .plain "in_bval", "b0_avg", "in_bval"⟩
      , ⟨"inputnode", .plain "in_file", "MergeDWIs", "in_dwi"⟩
      , ⟨"inputnode", .plain "in_bval", "MergeDWIs", "in_bval"⟩
      , ⟨"inputnode", .plain "in_xfms", "InitXforms", "in_xfms"⟩
      , ⟨"inputnode", .plain "in_bval", "InitXforms", "in_bval"⟩
      , ⟨"inputnode", .plain "in_bval", "GatherMatrices", "in_bval"⟩
      , ⟨"SplitDWIs", .plain "out_files", "Pick_DWIs", "inlist"⟩
      , ⟨"inputnode", .viaFun "in_bval" .nonb0, "Pick_DWIs", "index"⟩
      , ⟨"inputnode", .plain "in_mask", "CoRegistration", "ref_weight"⟩
      , ⟨"b0_avg", .plain "out_file", "CoRegistration", "reference"⟩
      , ⟨"Pick_DWIs", .plain "out", "CoRegistration", "in_file"⟩
      , ⟨"InitXforms", .plain "init_xfms", "CoRegistration", "in_matrix_file"⟩
      , ⟨"CoRegistration", .plain "out_matrix_file", "GatherMatrices", "in_xfms"⟩
      , ⟨"CoRegistration", .viaFun "out_matrix_file" .xfmJacobian, "ModulateDWIs", "operand_value"⟩
      , ⟨"CoRegistration", .plain "out_file", "ModulateDWIs", "in_file"⟩
      , ⟨"ModulateDWIs", .plain "out_file", "RemoveNegative", "in_file"⟩
      , ⟨"RemoveNegative", .plain "out_file", "MergeDWIs", "in_corrected"⟩
      , ⟨"GatherMatrices", .plain "out_files", "outputnode", "out_xfms"⟩
      , ⟨"MergeDWIs", .plain "out_file", "outputnode", "out_file"⟩
      ]
  }

/-- C1: the declared trait metadata of the `output_file` input field of the
`Gennlxfm` wrapper carries the naming template `%s_gennlxfm.xfm`, sources its
name from the `like` input, is generated automatically, is excluded from
hashing, and sits last (position -1) in the generated command line; the
auto-generated expected map lists exactly the same attributes. -/
theorem C1_gennlxfm_output_file_traits :
    List.lookup "output_file" Gennlxfm.input_traits =
      some { argstr := some "%s", genfile := some true, hash_files := some false,
             name_source := some ["like"], name_template := some "%s_gennlxfm.xfm",
             position := some (-1) } ∧
    List.lookup "output_file" Gennlxfm.input_traits =
      List.lookup "output_file" gennlxfm_input_map := by
  exact ⟨rfl, rfl⟩

/-- C5: the `Gennlxfm` wrapper declares a `clobber` input flag with argument
string `-clobber` and `usedefault` enabled. -/
theorem C5_gennlxfm_clobber_traits :
    List.lookup "clobber" Gennlxfm.input_traits =
      some { argstr := some "-clobber", usedefault := some true } ∧
    List.lookup "clobber" Gennlxfm.input_traits =
      List.lookup "clobber" gennlxfm_input_map := by
  exact ⟨rfl, rfl⟩

/-- C6: the wrapper's declared input traits equal the generated expected map on
every field named there, and the individual expected attributes hold: `args`
has argstr `%s`, `ident` has `-ident`, `like` has `-like %s`, `step` has
`-step %s`, `verbose` has `-verbose`, and `environ`, `ignore_exception` and
`terminal_output` are excluded from hashing. -/
theorem C6_gennlxfm_input_map_traits :
    Gennlxfm.input_traits = gennlxfm_input_map ∧
    (List.lookup "args" Gennlxfm.input_traits).map TraitMeta.argstr =
      some (some "%s") ∧
    (List.lookup "ident" Gennlxfm.input_traits).map TraitMeta.argstr =
      some (some "-ident") ∧
    (List.lookup "like" Gennlxfm.input_traits).map TraitMeta.argstr =
      some (some "-like %s") ∧
    (List.lookup "step" Gennlxfm.input_traits).map TraitMeta.argstr =
      some (some "-step %s") ∧
    (List.lookup "verbose" Gennlxfm.input_traits).map TraitMeta.argstr =
      some (some "-verbose") ∧
    (List.lookup "environ" Gennlxfm.input_traits).map TraitMeta.nohash =
      some (some true) ∧
    (List.lookup "ignore_exception" Gennlxfm.input_traits).map TraitMeta.nohash =
      some (some true) ∧
    (List.lookup "terminal_output" Gennlxfm.input_traits).map TraitMeta.nohash =
      some (some true) := by
  refine ⟨rfl, rfl, rfl, rfl, rfl, rfl, rfl, rfl, rfl⟩

/-- C10: the wrapper's output spec declares exactly the two output fields
`output_file` and `output_grid`, and the generated expected output map
constrains no trait attribute on either (both attribute records are empty). -/
theorem C10_gennlxfm_output_traits :
    Gennlxfm.output_traits.map Prod.fst = ["output_file", "output_grid"] ∧
    gennlxfm_output_map =
      [("output_file", ({} : TraitMeta)), ("output_grid", ({} : TraitMeta))] := by
  exact ⟨rfl, rfl⟩

/-- C7: whatever its name argument, the workflow built by `hmc_pipeline` has an
input node with exactly the fields `in_file`, `ref_num`, `in_bvec`, `in_mask`
and an output node with exactly `out_file`, `out_bvec`, `out_xfms`; the one
built by `ecc_pipeline` has an input node with exactly `in_file`, `in_bval`,
`in_mask`, `in_xfms` and an output node with exactly `out_file`, `out_xfms`. -/
theorem C7_pipeline_io_fields (hn en : String) :
    (hmc_pipeline hn).nodeInterface "inputnode" =
      some (.identityInterface ["in_file", "ref_num", "in_bvec", "in_mask"]) ∧
    (hmc_pipeline hn).nodeInterface "outputnode" =
      some (.identityInterface ["out_file", "out_bvec", "out_xfms"]) ∧
    (ecc_pipeline en).nodeInterface "inputnode" =
      some (.identityInterface ["in_file", "in_bval", "in_mask", "in_xfms"]) ∧
    (ecc_pipeline en).nodeInterface "outputnode" =
      some (.identityInterface ["out_file", "out_xfms"]) := by
  refine ⟨rfl, rfl, rfl, rfl⟩

/-- C3: `_checkrnum` returns the literal index 0 when `ref_num` is `None` or
undefined and returns `ref_num` unchanged otherwise, and the head-motion
workflow feeds exactly this value into the `index` input of its `Pick_b0`
node. -/
theorem C3_checkrnum (n : Int) :
    _checkrnum .none = 0 ∧
    _checkrnum .undefined = 0 ∧
    _checkrnum (.defined n) = n ∧
    (⟨"inputnode", .viaFun "ref_num" .checkrnum, "Pick_b0", "index"⟩ : Connection)
      ∈ (hmc_pipeline "motion_correct").connections := by
  refine ⟨rfl, rfl, rfl, by decide⟩

lemma mem_nonb0 (bvals : List ℚ) (i : ℕ) :
    i ∈ _nonb0 bvals ↔ i < bvals.length ∧ bvals.getD i 0 ≠ 0 := by
  simp [_nonb0, List.mem_filter, List.mem_range]

lemma checkinitxfm_length (bvals : List ℚ) (in_xfms : PyOpt (List String)) :
    (_checkinitxfm bvals in_xfms).length = (_nonb0 bvals).length := by
  cases in_xfms with
  | none => simp [_checkinitxfm]
  | undefined => simp [_checkinitxfm]
  | defined xs =>
      by_cases h : xs.length = bvals.length <;> simp [_checkinitxfm, h]

/-- C8: the index list of `_nonb0` is strictly increasing and holds exactly the
positions carrying a nonzero b-value, and `_checkinitxfm` returns one transform
entry per such position in its fallback branches and its pass-through branch
alike. -/
theorem C8_nonb0_indices (bvals : List ℚ) (xs : List String) :
    (_nonb0 bvals).Pairwise (· < ·) ∧
    (∀ i, i ∈ _nonb0 bvals ↔ i < bvals.length ∧ bvals.getD i 0 ≠ 0) ∧
    (_checkinitxfm bvals .none).length = (_nonb0 bvals).length ∧
    (_checkinitxfm bvals .undefined).length = (_nonb0 bvals).length ∧
    (_checkinitxfm bvals (.defined xs)).length = (_nonb0 bvals).length := by
  refine ⟨?_, mem_nonb0 bvals, checkinitxfm_length bvals .none,
    checkinitxfm_length bvals .undefined, checkinitxfm_length bvals (.defined xs)⟩
  exact List.Pairwise.sublist (List.filter_sublist _) (List.pairwise_lt_range _)

/-- C4: `_checkinitxfm` never fails on a missing or mismatched transform list:
when `in_xfms` is `None`, undefined, or of length different from the b-value
table, it answers a freshly written identity transform for every nonzero
b-value index; otherwise it answers exactly the entries of `in_xfms` at those
indices, in order, every such index lying inside the table (so inside
`in_xfms` as well). -/
theorem C4_checkinitxfm_fallback (bvals : List ℚ) (xs : List String) :
    _checkinitxfm bvals .none = (_nonb0 bvals).map .freshIdentity ∧
    _checkinitxfm bvals .undefined = (_nonb0 bvals).map .freshIdentity ∧
    (xs.length ≠ bvals.length →
      _checkinitxfm bvals (.defined xs) = (_nonb0 bvals).map .freshIdentity) ∧
    (xs.length = bvals.length →
      _checkinitxfm bvals (.defined xs) =
        (_nonb0 bvals).map fun i => .passthrough (xs.getD i "")) ∧
    (∀ i ∈ _nonb0 bvals, i < bvals.length) := by
  refine ⟨rfl, rfl, fun h => ?_, fun h => ?_, fun i hi => ((mem_nonb0 bvals i).1 hi).1⟩
  · simp [_checkinitxfm, h]
  · simp [_checkinitxfm, h]

/-- C4, instantiated: both the length-mismatch fallback and the pass-through
branch evaluated on concrete data. -/
theorem C4_checkinitxfm_fallback_witness :
    _checkinitxfm [0, 1000] (.defined ["a"]) = [.freshIdentity 1] ∧
    _checkinitxfm [0, 1000] (.defined ["a", "b"]) = [.passthrough "b"] ∧
    1 < [(0 : ℚ), 1000].length := by
  refine ⟨?_, ?_, ?_⟩
  · rw [(C4_checkinitxfm_fallback [0, 1000] ["a"]).2.2.1 (by decide)]
    decide
  · rw [(C4_checkinitxfm_fallback [0, 1000] ["a", "b"]).2.2.2.1 (by decide)]
    decide
  · exact (C4_checkinitxfm_fallback [0, 1000] ["a"]).2.2.2.2 1 (by decide)

lemma xfm_jacobian_getD (ms : List (Matrix (Fin 4) (Fin 4) ℚ)) (i : ℕ) :
    (_xfm_jacobian ms).getD i 0 = |(ms.getD i 0).det| := by
  induction ms generalizing i with
  | nil => simp [_xfm_jacobian, List.getD]
  | cons m ms ih =>
      cases i with
      | zero => simp [_xfm_jacobian, List.getD]
      | succ j => simpa [_xfm_jacobian, List.getD] using ih j

/-- C9: every modulation factor produced by `_xfm_jacobian` is nonnegative
(an absolute value is taken), and the output list is as long as the input
list. -/
theorem C9_xfm_jacobian_nonneg (ms : List (Matrix (Fin 4) (Fin 4) ℚ)) (i : ℕ) :
    0 ≤ (_xfm_jacobian ms).getD i 0 ∧
    (_xfm_jacobian ms).length = ms.length := by
  refine ⟨?_, by simp [_xfm_jacobian]⟩
  rw [xfm_jacobian_getD]
  exact abs_nonneg _

/-- C2 counterexample: on the affine transform `diag(-1, 1, 1, 1)`, whose
determinant is -1, the modulation factor computed by `_xfm_jacobian` is 1, not
the determinant of the matrix. -/
theorem C2_xfm_jacobian_det_counterexample :
    (_xfm_jacobian [Matrix.diagonal ![(-1 : ℚ), 1, 1, 1]]).getD 0 0 ≠
      (Matrix.diagonal ![(-1 : ℚ), 1, 1, 1]).det := by
  have h : (Matrix.diagonal ![(-1 : ℚ), 1, 1, 1]).det = -1 := by
    rw [Matrix.det_diagonal, Fin.prod_univ_four]
    norm_num
  simp [_xfm_jacobian, List.getD, h]
  norm_num

/-- C2 (amended): the per-volume intensity-modulation factor computed by
`_xfm_jacobian` equals the absolute value of the Jacobian determinant of the
corresponding affine transform — `|det|` of that 4x4 matrix — the returned
list has exactly one factor per input matrix, and the factor list feeds the
`operand_value` input of the `ModulateDWIs` multiplication node of
`ecc_pipeline`. -/
theorem C2_xfm_jacobian_abs_det (ms : List (Matrix (Fin 4) (Fin 4) ℚ)) (i : ℕ) :
    (_xfm_jacobian ms).getD i 0 = |(ms.getD i 0).det| ∧
    (_xfm_jacobian ms).length = ms.length ∧
    (⟨"CoRegistration", .viaFun "out_matrix_file" .xfmJacobian,
      "ModulateDWIs", "operand_value"⟩ : Connection)
      ∈ (ecc_pipeline "eddy_correct").connections := by
  exact ⟨xfm_jacobian_getD ms i, by simp [_xfm_jacobian], by decide⟩

end Nipype
